import Mathlib

/-!
Shallow embedding of the `untis` package: a session-authenticated client for a
remote timetabling JSON-RPC service.  Network interaction is abstracted by
passing the decoded response of each remote call as an explicit argument
(`NetResult`), and every operation additionally returns the list of remote
calls it issued, so that fail-fast properties can be stated.  Go runtime
panics (out-of-range string slicing, out-of-range index) are modelled by an
`Option` layer: `none` is a panic.
-/

namespace Untis

/-- Name of this client, sent with the authenticate call. -/
def ClientName : String := "Refundable"

/-- The Client struct: credentials plus mutable session state. -/
structure Client where
  Username : String
  Password : String
  SessionID : String
  PersonType : Int
  PersonID : Int
  Closed : Bool
  Authenticated : Bool
deriving Repr, DecidableEq

/-- Zero value of the Go Client struct, produced by reading a missing key of
the `activeClients` map. -/
def zeroClient : Client :=
  { Username := "", Password := "", SessionID := "", PersonType := 0,
    PersonID := 0, Closed := false, Authenticated := false }

/-- The package-level `activeClients` map from username to Client.  A Go map
of struct values: insertion copies the struct.  Modelled as an association
list where the most recent insertion for a key wins. -/
abbrev Registry := List (String × Client)

/-- Insertion `activeClients[username] = client` (stores a copy of the value). -/
def regSet (reg : Registry) (username : String) (c : Client) : Registry :=
  (username, c) :: reg

/-- Map read `activeClients[username]`, yielding the zero value when absent. -/
def regGet (reg : Registry) (username : String) : Client :=
  ((reg.find? (fun p => p.1 == username)).map (fun p => p.2)).getD zeroClient

/-- CreateClient: builds a fresh unauthenticated client, stores a copy of it
in the registry, and returns the (separately owned) client value that the Go
code hands back as a pointer. -/
def CreateClient (reg : Registry) (username password : String) : Registry × Client :=
  let client : Client :=
    { Username := username, Password := password, SessionID := "",
      PersonType := -1, PersonID := -1, Closed := false, Authenticated := false }
  (regSet reg username client, client)

/-- GetClient: reads the registry entry for the username (the stored copy). -/
def GetClient (reg : Registry) (username : String) : Client :=
  regGet reg username

/-- Outcome of one remote call, as seen after transport and JSON decoding:
transport failure, decode failure, or a decoded response together with the
fact whether its id matched the generated request id. -/
inductive NetResult (α : Type) where
  | transportError (msg : String)
  | decodeError (msg : String)
  | response (correlated : Bool) (result : α)
deriving Repr, DecidableEq

/-- Decoded result object of the `authenticate` call.  `personType` and
`personId` default to 0 when absent or mis-typed, mirroring the ignored
type-assertion results. -/
structure AuthResult where
  sessionId : String
  personType : Int
  personId : Int
deriving Repr, DecidableEq

/-- A remote call issued by the client, with the request parameters that
depend on client state. -/
inductive Call where
  | authenticate
  | getTimetable (id : Int) (type : Int)
  | getTeachers
  | getRooms
  | getKlassen
  | logout
deriving Repr, DecidableEq

/-- Authenticate: rejected when already authenticated (before any network
traffic); otherwise sends the authenticate call and, on a correlated
response, stores session id and person identity and sets the flags. -/
def Authenticate (client : Client) (net : NetResult AuthResult) :
    Client × Except String Unit × List Call :=
  if client.Authenticated then
    (client, .error "already authenticated", [])
  else
    match net with
    | .transportError m => (client, .error m, [.authenticate])
    | .decodeError m => (client, .error m, [.authenticate])
    | .response correlated r =>
      if correlated then
        ({ client with
            SessionID := r.sessionId
            PersonType := r.personType
            PersonID := r.personId
            Authenticated := true
            Closed := false },
         .ok (), [.authenticate])
      else
        (client, .error "IDs not matching", [.authenticate])

/-- Close: rejected when not authenticated; otherwise flips the flags first
and only then issues the logout call, whose transport error (if any) is
returned without rolling the state change back.  The logout response body is
never inspected, so the environment is just an optional transport error. -/
def Close (client : Client) (logoutErr : Option String) :
    Client × Except String Unit × List Call :=
  if !client.Authenticated then
    (client, .error "not authenticated", [])
  else
    let client := { client with Closed := true, Authenticated := false }
    match logoutErr with
    | some m => (client, .error m, [.logout])
    | none => (client, .ok (), [.logout])

/-- Digit-string parsing helper: the accumulated value, or `none` if a
non-digit is met.  All strings this development touches are ASCII, so Go's
byte-level string functions coincide with these character-level ones. -/
def parseDigits (acc : Nat) : List Char → Option Nat
  | [] => some acc
  | c :: cs =>
    if '0' ≤ c ∧ c ≤ '9' then parseDigits (acc * 10 + (c.toNat - '0'.toNat)) cs
    else none

/-- strconv.Atoi with its error discarded: every Go caller in this package
ignores the error and keeps the value, which is 0 whenever parsing fails. -/
def goAtoi (s : String) : Int :=
  match s.data with
  | '-' :: rest =>
    match parseDigits 0 rest with
    | some n => -(n : Int)
    | none => 0
  | '+' :: rest =>
    match parseDigits 0 rest with
    | some n => (n : Int)
    | none => 0
  | l =>
    match parseDigits 0 l with
    | some n => (n : Int)
    | none => 0

/-- strconv.Itoa. -/
def goItoa (n : Int) : String := toString n

/-- Go slice prefix `s[0:n]` of an ASCII string. -/
def goTake (s : String) (n : Nat) : String := ⟨s.data.take n⟩

/-- Go slice suffix `s[n:]` of an ASCII string. -/
def goDrop (s : String) (n : Nat) : String := ⟨s.data.drop n⟩

/-- Splitting a character list on every occurrence of a separator, keeping
empty parts, as Go's strings.Split does. -/
def splitChars (sep : Char) : List Char → List (List Char)
  | [] => [[]]
  | c :: cs =>
    if c == sep then [] :: splitChars sep cs
    else
      match splitChars sep cs with
      | [] => [[c]]
      | w :: ws => (c :: w) :: ws

/-- strings.Split with a one-character separator. -/
def goSplit (s : String) (sep : Char) : List String :=
  (splitChars sep s.data).map (fun l => ⟨l⟩)

/-- ASCII uppercase of one character (the inputs of this package are ASCII,
where Go's Unicode-aware strings.ToUpper agrees with this). -/
def charUpper (c : Char) : Char :=
  if 'a' ≤ c ∧ c ≤ 'z' then Char.ofNat (c.toNat - 32) else c

/-- strings.ToUpper on ASCII strings. -/
def goToUpper (s : String) : String := ⟨s.data.map charUpper⟩

/-- A teacher record of the `getTeachers` listing, with the fields decoded. -/
structure TeacherRecord where
  ID : Int
  Name : String
  ForeName : String
  LongName : String
  ForeColor : String
  BackColor : String
deriving Repr, DecidableEq

/-- A room record of the `getRooms` listing. -/
structure RoomRecord where
  ID : Int
  Name : String
  LongName : String
  ForeColor : String
  BackColor : String
deriving Repr, DecidableEq

/-- A class record of the `getKlassen` listing. -/
structure ClassRecord where
  ID : Int
  Name : String
  LongName : String
  ForeColor : String
  BackColor : String
  Teacher1 : Int
  Teacher2 : Int
deriving Repr, DecidableEq

/-- Inner loop of the three id-list resolvers: scans the whole listing and
appends the name of every record whose id equals the probed id (the Go loop
has no break after a match). -/
def matchNames (key : α → Int) (name : α → String) (id : Int) : List α → List String
  | [] => []
  | r :: rest =>
    if id == key r then name r :: matchNames key name id rest
    else matchNames key name id rest

/-- Outer loop of the three id-list resolvers: one full scan of the listing
per input id, results appended in input order. -/
def collectNames (key : α → Int) (name : α → String) : List Int → List α → List String
  | [], _ => []
  | i :: ids, listing => matchNames key name i listing ++ collectNames key name ids listing

/-- ResolveTeachers: converts teacher ids to teacher names via one
`getTeachers` listing fetch. -/
def ResolveTeachers (client : Client) (ids : List Int)
    (net : NetResult (List TeacherRecord)) :
    Except String (List String) × List Call :=
  if !client.Authenticated then (.error "not authenticated", [])
  else
    match net with
    | .transportError m => (.error m, [.getTeachers])
    | .decodeError m => (.error m, [.getTeachers])
    | .response correlated listing =>
      if correlated then
        (.ok (collectNames TeacherRecord.ID TeacherRecord.Name ids listing), [.getTeachers])
      else (.error "ids not matching", [.getTeachers])

/-- ResolveRooms: converts room ids to room names via one `getRooms` fetch. -/
def ResolveRooms (client : Client) (ids : List Int)
    (net : NetResult (List RoomRecord)) :
    Except String (List String) × List Call :=
  if !client.Authenticated then (.error "not authenticated", [])
  else
    match net with
    | .transportError m => (.error m, [.getRooms])
    | .decodeError m => (.error m, [.getRooms])
    | .response correlated listing =>
      if correlated then
        (.ok (collectNames RoomRecord.ID RoomRecord.Name ids listing), [.getRooms])
      else (.error "ids not matching", [.getRooms])

/-- ResolveClasses: converts class ids to class names via one `getKlassen`
fetch. -/
def ResolveClasses (client : Client) (ids : List Int)
    (net : NetResult (List ClassRecord)) :
    Except String (List String) × List Call :=
  if !client.Authenticated then (.error "not authenticated", [])
  else
    match net with
    | .transportError m => (.error m, [.getKlassen])
    | .decodeError m => (.error m, [.getKlassen])
    | .response correlated listing =>
      if correlated then
        (.ok (collectNames ClassRecord.ID ClassRecord.Name ids listing), [.getKlassen])
      else (.error "ids not matching", [.getKlassen])

/-- Scan loop of ResolveTeacherID: compares the input forename against each
record's ForeName and the uppercased input surname token against the first
space-delimited token of the record's LongName, taken as-is. -/
def scanTeacherID (forename longname : String) : List TeacherRecord → Except String Int
  | [] => .error "teacher not found"
  | r :: rest =>
    let surname := (goSplit r.LongName ' ').headD ""
    if forename == r.ForeName && longname == surname then .ok r.ID
    else scanTeacherID forename longname rest

/-- ResolveTeacherID: converts a teacher display name to the teacher id via
one `getTeachers` fetch.  The Go code indexes `split[1]` of the space-split
input, which panics when the input contains no space: that panic is the
`none` result. -/
def ResolveTeacherID (client : Client) (teacher : String)
    (net : NetResult (List TeacherRecord)) :
    Option (Except String Int) × List Call :=
  if !client.Authenticated then (some (.error "not authenticated"), [])
  else
    match net with
    | .transportError m => (some (.error m), [.getTeachers])
    | .decodeError m => (some (.error m), [.getTeachers])
    | .response correlated listing =>
      if correlated then
        match goSplit teacher ' ' with
        | forename :: surnameTok :: _ =>
          (some (scanTeacherID forename (goToUpper surnameTok) listing), [.getTeachers])
        | _ => (none, [.getTeachers])
      else (some (.error "ids not matching"), [.getTeachers])

/-- Scan loop of ResolveClassID: exact match on the short name. -/
def scanClassID (cls : String) : List ClassRecord → Except String Int
  | [] => .error "class not found"
  | r :: rest => if cls == r.Name then .ok r.ID else scanClassID cls rest

/-- ResolveClassID: converts a class short name to the class id via one
`getKlassen` fetch. -/
def ResolveClassID (client : Client) (cls : String)
    (net : NetResult (List ClassRecord)) :
    Except String Int × List Call :=
  if !client.Authenticated then (.error "not authenticated", [])
  else
    match net with
    | .transportError m => (.error m, [.getKlassen])
    | .decodeError m => (.error m, [.getKlassen])
    | .response correlated listing =>
      if correlated then (scanClassID cls listing, [.getKlassen])
      else (.error "ids not matching", [.getKlassen])

/-- The int half of a Go `(int, error)` return.  Every error return of
ResolveClassID and ResolveTeacherID carries the value -1, so a caller that
discards the error is left with -1. -/
def goIntValue (r : Except String Int) : Int :=
  match r with
  | .ok v => v
  | .error _ => -1

/-- Packed date decoding of a timetable record: chars 0-3 are the year,
4-5 the month, 6-7 the day.  Slicing a string of fewer than 8 chars panics
in Go, modelled as `none`. -/
def decodeDate (d : Int) : Option (Int × Int × Int) :=
  let s := goItoa d
  if 8 ≤ s.length then
    some (goAtoi (goTake s 4), goAtoi (goTake (goDrop s 4) 2), goAtoi (goTake (goDrop s 6) 2))
  else none

/-- Packed time decoding of a timetable record: the last two chars are the
minutes, everything before them the hours.  Slicing a one-char string with a
negative end index panics in Go, modelled as `none`. -/
def decodePacked (t : Int) : Option (Int × Int) :=
  let s := goItoa t
  if 2 ≤ s.length then
    some (goAtoi (goTake s (s.length - 2)), goAtoi (goDrop s (s.length - 2)))
  else none

/-- The year/month/day/hour/minute quintuple handed to time.Date with UTC;
calendar normalization is not needed by any claim and is not modelled. -/
structure GoTime where
  year : Int
  month : Int
  day : Int
  hour : Int
  minute : Int
deriving Repr, DecidableEq

/-- A normalized lesson as produced by the timetable retrievals. -/
structure Lesson where
  Start : GoTime
  End : GoTime
  ClassIDs : List Int
  Classes : List String
  TeacherIDs : List Int
  Teachers : List String
  RoomIDs : List Int
  Rooms : List String
deriving Repr, DecidableEq

/-- A raw timetable record as decoded from the `getTimetable` response; the
nested id objects are flattened to id lists. -/
structure RawLesson where
  ID : Int
  Date : Int
  StartTime : Int
  EndTime : Int
  Kl : List Int
  Te : List Int
  Su : List Int
  Ro : List Int
deriving Repr, DecidableEq

/-- Responses the environment supplies to one timetable retrieval: one for
the `getTimetable` call and one per reference listing (the repeated listing
fetches of one retrieval see the same server data). -/
structure TimetableEnv where
  timetable : NetResult (List RawLesson)
  teachers : NetResult (List TeacherRecord)
  rooms : NetResult (List RoomRecord)
  klassen : NetResult (List ClassRecord)
deriving Repr, DecidableEq

/-- The per-record loop shared by the three timetable retrievals: decode the
packed date and times, resolve the class, teacher and room id lists, and cons
the built Lesson; the first resolver error aborts the whole loop. -/
def buildLessons (client : Client) (env : TimetableEnv) :
    List RawLesson → Option (Except String (List Lesson)) × List Call
  | [] => (some (.ok []), [])
  | l :: rest =>
    match decodeDate l.Date, decodePacked l.StartTime, decodePacked l.EndTime with
    | some (year, month, day), some (startHour, startMinute), some (endHour, endMinute) =>
      (match ResolveClasses client l.Kl env.klassen with
       | (.error m, calls) => (some (.error m), calls)
       | (.ok classArr, calls1) =>
         match ResolveTeachers client l.Te env.teachers with
         | (.error m, calls2) => (some (.error m), calls1 ++ calls2)
         | (.ok teachArr, calls2) =>
           match ResolveRooms client l.Ro env.rooms with
           | (.error m, calls3) => (some (.error m), calls1 ++ calls2 ++ calls3)
           | (.ok roomArr, calls3) =>
             match buildLessons client env rest with
             | (res, calls4) =>
               let lesson : Lesson :=
                 { Start := ⟨year, month, day, startHour, startMinute⟩
                   End := ⟨year, month, day, endHour, endMinute⟩
                   ClassIDs := l.Kl
                   Classes := classArr
                   TeacherIDs := l.Te
                   Teachers := teachArr
                   RoomIDs := l.Ro
                   Rooms := roomArr }
               (match res with
                | some (.ok ls) => some (.ok (lesson :: ls))
                | other => other,
                calls1 ++ calls2 ++ calls3 ++ calls4))
    | _, _, _ => (none, [])

/-- GetTimetableOfTeacher: fetches the timetable of the logged-in person
(its own person id and type) over a date range. -/
def GetTimetableOfTeacher (client : Client) (_start _endT : GoTime) (env : TimetableEnv) :
    Option (Except String (List Lesson)) × List Call :=
  if !client.Authenticated then (some (.error "not authenticated"), [])
  else
    match env.timetable with
    | .transportError m => (some (.error m), [.getTimetable client.PersonID client.PersonType])
    | .decodeError m => (some (.error m), [.getTimetable client.PersonID client.PersonType])
    | .response correlated result =>
      if correlated then
        match buildLessons client env result with
        | (res, calls) => (res, .getTimetable client.PersonID client.PersonType :: calls)
      else (some (.error "ids not matching"), [.getTimetable client.PersonID client.PersonType])

/-- GetTimetableOfClass: resolves the class name to an id — discarding the
resolution error, exactly as the Go code's blank assignment does — and
issues the timetable query with person-type 1 for that id (-1 when the
resolution failed). -/
def GetTimetableOfClass (client : Client) (_start _endT : GoTime) (cls : String)
    (env : TimetableEnv) :
    Option (Except String (List Lesson)) × List Call :=
  if !client.Authenticated then (some (.error "not authenticated"), [])
  else
    match ResolveClassID client cls env.klassen with
    | (classIDRes, classCalls) =>
      let classID := goIntValue classIDRes
      match env.timetable with
      | .transportError m => (some (.error m), classCalls ++ [.getTimetable classID 1])
      | .decodeError m => (some (.error m), classCalls ++ [.getTimetable classID 1])
      | .response correlated result =>
        if correlated then
          match buildLessons client env result with
          | (res, calls) => (res, classCalls ++ .getTimetable classID 1 :: calls)
        else (some (.error "ids not matching"), classCalls ++ [.getTimetable classID 1])

/-- GetTimetableOfSpecificTeacher: resolves the teacher display name to an
id — propagating a resolution failure — and issues the timetable query with
person-type 2. -/
def GetTimetableOfSpecificTeacher (client : Client) (_start _endT : GoTime)
    (teacher : String) (env : TimetableEnv) :
    Option (Except String (List Lesson)) × List Call :=
  if !client.Authenticated then (some (.error "not authenticated"), [])
  else
    match ResolveTeacherID client teacher env.teachers with
    | (none, calls) => (none, calls)
    | (some (.error m), calls) => (some (.error m), calls)
    | (some (.ok id), calls) =>
      match env.timetable with
      | .transportError m => (some (.error m), calls ++ [.getTimetable id 2])
      | .decodeError m => (some (.error m), calls ++ [.getTimetable id 2])
      | .response correlated result =>
        if correlated then
          match buildLessons client env result with
          | (res, calls2) => (res, calls ++ .getTimetable id 2 :: calls2)
        else (some (.error "ids not matching"), calls ++ [.getTimetable id 2])

/-- GetLessonNrByStart: fixed table from a lesson start wall-clock time to
the period ordinal, -1 when unmapped. -/
def GetLessonNrByStart (hour minute : Nat) : Int :=
  match hour with
  | 8 => if minute == 0 then 1 else if minute == 50 then 2 else -1
  | 9 => 3
  | 10 => 4
  | 11 => 5
  | 12 => 6
  | 13 => 7
  | 14 => 8
  | 15 => 9
  | 16 => 10
  | 17 => if minute == 0 then 11 else if minute == 45 then 12 else -1
  | 18 => 13
  | 19 => 14
  | 20 => 15
  | _ => -1

/-- GetLessonNrByEnd: fixed table from a lesson end wall-clock time to the
period ordinal, -1 when unmapped. -/
def GetLessonNrByEnd (hour minute : Nat) : Int :=
  match hour with
  | 8 => 1
  | 9 => 2
  | 10 => 3
  | 11 => 4
  | 12 => 5
  | 13 => 6
  | 14 => 7
  | 15 => 8
  | 16 => if minute == 0 then 9 else if minute == 50 then 10 else -1
  | 17 => 11
  | 18 => 12
  | 19 => 13
  | 20 => 14
  | 21 => 15
  | _ => -1

/-- One session-state operation on a client handle: an Authenticate attempt
with the response the environment supplies, or a Close attempt with the
logout transport outcome. -/
inductive SessionOp where
  | auth (net : NetResult AuthResult)
  | close (logoutErr : Option String)
deriving Repr, DecidableEq

/-- State reached after one session operation (the error result is dropped;
only the state evolution is tracked). -/
def applyOp (c : Client) : SessionOp → Client
  | .auth net => (Authenticate c net).1
  | .close e => (Close c e).1

/-- State reached after a sequence of session operations. -/
def runOps (c : Client) : List SessionOp → Client
  | [] => c
  | op :: ops => runOps (applyOp c op) ops

/-- Whether a session operation's authenticate response (if it is one)
carries a non-empty session token. -/
def tokenOk : SessionOp → Bool
  | .auth (.response _ r) => r.sessionId != ""
  | _ => true

/-- Modelled from the amended resolution claim: for each input id, in input
order, the names of all listing records carrying that id, in listing order. -/
def specResolvedNames (key : α → Int) (name : α → String)
    (ids : List Int) (listing : List α) : List String :=
  (ids.map (fun i => (listing.filter (fun r => i == key r)).map name)).flatten

/-- Rejoining tokens with single spaces (inverse of `goSplit` on separator
free tokens), used to express splitting on the FIRST space only. -/
def joinSpace : List String → String
  | [] => ""
  | [s] => s
  | s :: rest => s ++ " " ++ joinSpace rest

/-- Modelled from claim C5 as stated: split the display name on the first
space, uppercase the surname part, and compare it against the UPPERCASED
first long-name token of each record; the first match's id, or `none`. -/
def claimResolveTeacherID (teacher : String) (listing : List TeacherRecord) : Option Int :=
  match goSplit teacher ' ' with
  | forename :: rest =>
    let surnameTok := goToUpper (joinSpace rest)
    (listing.find? (fun r =>
      forename == r.ForeName &&
      surnameTok == goToUpper ((goSplit r.LongName ' ').headD ""))).map TeacherRecord.ID
  | [] => none

/-- Modelled from the amended claim C5: the surname token is the second
whitespace-delimited token of the input, uppercased, and the record's first
long-name token is compared as-is. -/
def amendedResolveTeacherID (teacher : String) (listing : List TeacherRecord) : Option Int :=
  match goSplit teacher ' ' with
  | forename :: surnameTok :: _ =>
    (listing.find? (fun r =>
      forename == r.ForeName &&
      goToUpper surnameTok == ((goSplit r.LongName ' ').headD ""))).map TeacherRecord.ID
  | _ => none

/-- Modelled from the claim's period table for lesson start times. -/
def specPeriodFromStart (hour minute : Nat) : Int :=
  if hour == 8 then (if minute == 0 then 1 else if minute == 50 then 2 else -1)
  else if 9 ≤ hour ∧ hour ≤ 16 then (hour : Int) - 6
  else if hour == 17 then (if minute == 0 then 11 else if minute == 45 then 12 else -1)
  else if 18 ≤ hour ∧ hour ≤ 20 then (hour : Int) - 5
  else -1

/-- Modelled from the claim's period table for lesson end times. -/
def specPeriodFromEnd (hour minute : Nat) : Int :=
  if 8 ≤ hour ∧ hour ≤ 15 then (hour : Int) - 7
  else if hour == 16 then (if minute == 0 then 9 else if minute == 50 then 10 else -1)
  else if 17 ≤ hour ∧ hour ≤ 21 then (hour : Int) - 6
  else -1

/-- An authenticated client, as left by a successful handshake. -/
def authClient : Client :=
  { Username := "jdoe", Password := "secret", SessionID := "ABC123",
    PersonType := 2, PersonID := 5, Closed := false, Authenticated := true }

/-- An environment whose every response is correlated and empty. -/
def emptyEnv : TimetableEnv :=
  { timetable := .response true [], teachers := .response true [],
    rooms := .response true [], klassen := .response true [] }

/-- A concrete date for instantiating date-range parameters. -/
def day0 : GoTime := ⟨2024, 3, 11, 0, 0⟩

/-- Invariant of the amended claim C2: an authenticated state is not closed
and holds a non-empty token. -/
def goodSession (c : Client) : Prop :=
  c.Authenticated = true → (c.Closed = false ∧ c.SessionID ≠ "")

/-- The state of a freshly created client after a successful handshake
followed by a successful Close. -/
def closedAfterAuth : Client :=
  runOps (CreateClient [] "jdoe" "secret").2
    [.auth (.response true ⟨"ABC123", 2, 5⟩), .close none]

/-- A listing in which two records share the id 1. -/
def dupListing : List TeacherRecord :=
  [⟨1, "AMA", "Alice", "AMANN Alice", "", ""⟩, ⟨1, "BER", "Bob", "BERG Bob", "", ""⟩]

/-- A listing whose long name starts with a mixed-case surname token. -/
def mixedCaseListing : List TeacherRecord :=
  [⟨5, "SMI", "John", "Smith Jonathan", "", ""⟩]

/-- The listing of the claim C5 scenario: long name starting with an
uppercase surname token. -/
def specListing : List TeacherRecord :=
  [⟨7, "SMI", "John", "SMITH Jonathan", "", ""⟩]

/-- A raw timetable record for 2024-03-11, 08:00-08:50, with no reference
ids to resolve. -/
def rawL : RawLesson := ⟨1, 20240311, 800, 850, [], [], [], []⟩

/-- An environment whose room-listing fetch fails at transport level while
everything else is correlated (the teacher listing resolves "John SMITH"). -/
def failEnv : TimetableEnv :=
  { timetable := .response true [rawL], teachers := .response true specListing,
    rooms := .transportError "connection reset", klassen := .response true [] }

/-- An environment in which the retrieval of `rawL` fully succeeds. -/
def okEnv : TimetableEnv :=
  { timetable := .response true [rawL], teachers := .response true [],
    rooms := .response true [], klassen := .response true [] }

/-- The lesson built from `rawL`. -/
def builtL : Lesson :=
  ⟨⟨2024, 3, 11, 8, 0⟩, ⟨2024, 3, 11, 8, 50⟩, [], [], [], [], [], []⟩

/-- Claim C7: GetLessonNrByStart and GetLessonNrByEnd are pure total
functions realizing exactly the fixed period tables of the spec, with the
sentinel -1 (never an error) on every unmapped wall-clock input. -/
theorem period_tables_exact :
    ∀ hour < 24, ∀ minute < 60,
      GetLessonNrByStart hour minute = specPeriodFromStart hour minute ∧
      GetLessonNrByEnd hour minute = specPeriodFromEnd hour minute := by
  decide

/-- Witness for C7 at hour 16, minute 50 (a minute-split case of both tables). -/
theorem period_tables_instance :
    GetLessonNrByStart 16 50 = specPeriodFromStart 16 50 ∧
    GetLessonNrByEnd 16 50 = specPeriodFromEnd 16 50 :=
  period_tables_exact 16 (by decide) 50 (by decide)

/-- Claim C8: Authenticate on an already-authenticated client fails with the
already-authenticated error and leaves the whole session state (token
included) unchanged, issuing no network call. -/
theorem reauthenticate_rejected (c : Client) (net : NetResult AuthResult)
    (h : c.Authenticated = true) :
    Authenticate c net = (c, .error "already authenticated", []) := by
  simp [Authenticate, h]

/-- Witness for C8 on a concrete authenticated client. -/
theorem reauthenticate_rejected_instance :
    Authenticate authClient (.response true ⟨"XYZ", 2, 5⟩) =
      (authClient, .error "already authenticated", []) :=
  reauthenticate_rejected authClient (.response true ⟨"XYZ", 2, 5⟩) rfl

/-- Claim C9: every authenticated-only operation invoked on a session whose
Authenticated flag is false fails with the not-authenticated error and
issues zero network calls. -/
theorem unauthenticated_fails_fast (c : Client) (h : c.Authenticated = false) :
    (∀ s e env, GetTimetableOfTeacher c s e env = (some (.error "not authenticated"), [])) ∧
    (∀ s e cls env, GetTimetableOfClass c s e cls env = (some (.error "not authenticated"), [])) ∧
    (∀ s e teacher env,
      GetTimetableOfSpecificTeacher c s e teacher env = (some (.error "not authenticated"), [])) ∧
    (∀ ids net, ResolveTeachers c ids net = (.error "not authenticated", [])) ∧
    (∀ ids net, ResolveRooms c ids net = (.error "not authenticated", [])) ∧
    (∀ ids net, ResolveClasses c ids net = (.error "not authenticated", [])) ∧
    (∀ teacher net, ResolveTeacherID c teacher net = (some (.error "not authenticated"), [])) ∧
    (∀ cls net, ResolveClassID c cls net = (.error "not authenticated", [])) ∧
    (∀ logoutErr, Close c logoutErr = (c, .error "not authenticated", [])) := by
  refine ⟨?_, ?_, ?_, ?_, ?_, ?_, ?_, ?_, ?_⟩ <;> intros <;>
    simp [GetTimetableOfTeacher, GetTimetableOfClass, GetTimetableOfSpecificTeacher,
      ResolveTeachers, ResolveRooms, ResolveClasses, ResolveTeacherID, ResolveClassID,
      Close, h]

/-- Witness for C9: all nine operations on a concrete unauthenticated
client. -/
theorem unauthenticated_fails_fast_instance :
    GetTimetableOfTeacher zeroClient day0 day0 emptyEnv
      = (some (.error "not authenticated"), []) ∧
    GetTimetableOfClass zeroClient day0 day0 "1AHIT" emptyEnv
      = (some (.error "not authenticated"), []) ∧
    GetTimetableOfSpecificTeacher zeroClient day0 day0 "John Smith" emptyEnv
      = (some (.error "not authenticated"), []) ∧
    ResolveTeachers zeroClient [1] (.response true []) = (.error "not authenticated", []) ∧
    ResolveRooms zeroClient [1] (.response true []) = (.error "not authenticated", []) ∧
    ResolveClasses zeroClient [1] (.response true []) = (.error "not authenticated", []) ∧
    ResolveTeacherID zeroClient "John Smith" (.response true [])
      = (some (.error "not authenticated"), []) ∧
    ResolveClassID zeroClient "1AHIT" (.response true []) = (.error "not authenticated", []) ∧
    Close zeroClient none = (zeroClient, .error "not authenticated", []) := by
  obtain ⟨h1, h2, h3, h4, h5, h6, h7, h8, h9⟩ := unauthenticated_fails_fast zeroClient rfl
  exact ⟨h1 day0 day0 emptyEnv, h2 day0 day0 "1AHIT" emptyEnv,
    h3 day0 day0 "John Smith" emptyEnv, h4 [1] (.response true []),
    h5 [1] (.response true []), h6 [1] (.response true []),
    h7 "John Smith" (.response true []), h8 "1AHIT" (.response true []), h9 none⟩

/-- Claim C10: Close on an authenticated client flips the flags before the
logout request, so even on transport failure the returned state is closed
and unauthenticated with the token kept, and the error is surfaced. -/
theorem close_not_rolled_back (c : Client) (h : c.Authenticated = true)
    (logoutErr : Option String) :
    (Close c logoutErr).1.Closed = true ∧
    (Close c logoutErr).1.Authenticated = false ∧
    (Close c logoutErr).1.SessionID = c.SessionID ∧
    (∀ m, logoutErr = some m → (Close c logoutErr).2.1 = .error m) ∧
    (Close c logoutErr).2.2 = [Call.logout] := by
  cases logoutErr <;> simp [Close, h]

/-- Witness for C10 on a concrete authenticated client whose logout call
fails at transport level. -/
theorem close_not_rolled_back_instance :
    (Close authClient (some "connection reset")).1.Closed = true ∧
    (Close authClient (some "connection reset")).1.Authenticated = false ∧
    (Close authClient (some "connection reset")).1.SessionID = authClient.SessionID ∧
    (∀ m, (some "connection reset" : Option String) = some m →
      (Close authClient (some "connection reset")).2.1 = .error m) ∧
    (Close authClient (some "connection reset")).2.2 = [Call.logout] :=
  close_not_rolled_back authClient rfl (some "connection reset")

/-- Claim C1: the registry is NOT a point of shared truth — `activeClients`
is a Go map of struct values, so CreateClient stores a snapshot and a later
successful Authenticate on the returned handle never reaches the stored
entry: GetClient still returns an unauthenticated session with no token. -/
theorem registry_copy_loses_authentication :
    (Authenticate (CreateClient [] "jdoe" "secret").2 (.response true ⟨"ABC123", 2, 5⟩)).2.1
      = .ok () ∧
    (Authenticate (CreateClient [] "jdoe" "secret").2 (.response true ⟨"ABC123", 2, 5⟩)).1.Authenticated
      = true ∧
    (Authenticate (CreateClient [] "jdoe" "secret").2 (.response true ⟨"ABC123", 2, 5⟩)).1.SessionID
      = "ABC123" ∧
    (GetClient (CreateClient [] "jdoe" "secret").1 "jdoe").Authenticated = false ∧
    (GetClient (CreateClient [] "jdoe" "secret").1 "jdoe").SessionID = "" :=
  ⟨rfl, rfl, rfl, rfl, rfl⟩

/-- Counterexample to claim C2 as stated: after a successful Authenticate
(with token "ABC123") and a successful Close, the session is unauthenticated
yet its token is still non-empty, refuting the claimed iff between a
non-empty token and the Authenticated flag. -/
theorem session_token_outlives_authentication :
    closedAfterAuth.Authenticated = false ∧
    closedAfterAuth.SessionID = "ABC123" ∧
    ¬(closedAfterAuth.SessionID ≠ "" ↔ closedAfterAuth.Authenticated = true) :=
  ⟨rfl, rfl, fun h => absurd (h.mp (by decide)) (by decide)⟩

/-- One session operation with a non-empty authenticate token preserves the
amended C2 invariant. -/
theorem applyOp_goodSession (c : Client) (op : SessionOp) (hop : tokenOk op = true)
    (hc : goodSession c) : goodSession (applyOp c op) := by
  cases op with
  | auth net =>
    by_cases ha : c.Authenticated = true
    · simpa [applyOp, Authenticate, ha] using hc
    · have ha' : c.Authenticated = false := by
        cases h : c.Authenticated
        · rfl
        · exact absurd h ha
      cases net with
      | transportError m => simpa [applyOp, Authenticate, ha'] using hc
      | decodeError m => simpa [applyOp, Authenticate, ha'] using hc
      | response correlated r =>
        cases correlated with
        | false => simpa [applyOp, Authenticate, ha'] using hc
        | true =>
          intro _
          refine ⟨by simp [applyOp, Authenticate, ha'], ?_⟩
          have : r.sessionId ≠ "" := by
            simpa [tokenOk, bne_iff_ne] using hop
          simpa [applyOp, Authenticate, ha'] using this
  | close e =>
    by_cases ha : c.Authenticated = true
    · intro hcontr
      exfalso
      cases e with
      | some m => simp [applyOp, Close, ha] at hcontr
      | none => simp [applyOp, Close, ha] at hcontr
    · have ha' : c.Authenticated = false := by
        cases h : c.Authenticated
        · rfl
        · exact absurd h ha
      simpa [applyOp, Close, ha'] using hc

/-- A sequence of session operations with non-empty authenticate tokens
preserves the amended C2 invariant. -/
theorem runOps_goodSession : ∀ (ops : List SessionOp) (c : Client),
    (∀ op ∈ ops, tokenOk op = true) → goodSession c → goodSession (runOps c ops) := by
  intro ops
  induction ops with
  | nil => intro c _ hc; exact hc
  | cons op ops ih =>
    intro c hops hc
    exact ih (applyOp c op)
      (fun o ho => hops o (List.mem_cons_of_mem _ ho))
      (applyOp_goodSession c op (hops op (List.mem_cons_self _ _)) hc)

/-- Claim C2, amended: over every sequence of Authenticate and Close
operations from a fresh client, Authenticated and Closed are never both
true; and provided every authenticate response carries a non-empty session
token, a non-empty token is guaranteed WHILE the session is authenticated.
The converse direction of the claimed iff is false: Close keeps the token,
so an unauthenticated session can hold a non-empty token. -/
theorem flags_and_token_invariant (u p : String) (ops : List SessionOp)
    (h : ∀ op ∈ ops, tokenOk op = true) :
    ¬((runOps (CreateClient [] u p).2 ops).Authenticated = true ∧
      (runOps (CreateClient [] u p).2 ops).Closed = true) ∧
    ((runOps (CreateClient [] u p).2 ops).Authenticated = true →
      (runOps (CreateClient [] u p).2 ops).SessionID ≠ "") := by
  have hinit : goodSession (CreateClient [] u p).2 := by
    intro hAuth
    exact absurd hAuth (by simp [CreateClient])
  have hg := runOps_goodSession ops (CreateClient [] u p).2 h hinit
  constructor
  · rintro ⟨ha, hcl⟩
    have := (hg ha).1
    rw [this] at hcl
    exact Bool.noConfusion hcl
  · intro ha
    exact (hg ha).2

/-- Witness for the amended C2 on a concrete one-operation run. -/
theorem flags_and_token_invariant_instance :
    ¬((runOps (CreateClient [] "jdoe" "secret").2
        [.auth (.response true ⟨"ABC123", 2, 5⟩)]).Authenticated = true ∧
      (runOps (CreateClient [] "jdoe" "secret").2
        [.auth (.response true ⟨"ABC123", 2, 5⟩)]).Closed = true) ∧
    ((runOps (CreateClient [] "jdoe" "secret").2
        [.auth (.response true ⟨"ABC123", 2, 5⟩)]).Authenticated = true →
      (runOps (CreateClient [] "jdoe" "secret").2
        [.auth (.response true ⟨"ABC123", 2, 5⟩)]).SessionID ≠ "") :=
  flags_and_token_invariant "jdoe" "secret" [.auth (.response true ⟨"ABC123", 2, 5⟩)]
    (by decide)

/-- Counterexample to claim C3 as stated: with a single input id and a
listing holding two records with that id, the scan appends BOTH names (there
is no break after the first match), so the output is longer than the input
id list. -/
theorem resolver_appends_every_match :
    (ResolveTeachers authClient [1] (.response true dupListing)).1 = .ok ["AMA", "BER"] ∧
    ([1] : List Int).length < (["AMA", "BER"] : List String).length :=
  ⟨rfl, by decide⟩

/-- The inner resolver scan collects exactly the names of the records whose
id matches, in listing order. -/
theorem matchNames_eq_filter (key : α → Int) (name : α → String) (i : Int)
    (listing : List α) :
    matchNames key name i listing = (listing.filter (fun r => i == key r)).map name := by
  induction listing with
  | nil => rfl
  | cons r rest ih =>
    by_cases h : (i == key r) = true
    · simp [matchNames, List.filter_cons, h, ih]
    · have h' : (i == key r) = false := by
        simpa using h
      simp [matchNames, List.filter_cons, h', ih]

/-- The full resolver scan equals the amended specification form. -/
theorem collectNames_eq_spec (key : α → Int) (name : α → String)
    (ids : List Int) (listing : List α) :
    collectNames key name ids listing = specResolvedNames key name ids listing := by
  induction ids with
  | nil => rfl
  | cons i ids ih =>
    simp [collectNames, specResolvedNames, matchNames_eq_filter, ih]

/-- When no listing record carries the probed id, the inner scan is empty. -/
theorem matchNames_eq_nil (key : α → Int) (name : α → String) (i : Int)
    (listing : List α) (h : ∀ r ∈ listing, ¬(i = key r)) :
    matchNames key name i listing = [] := by
  induction listing with
  | nil => rfl
  | cons r rest ih =>
    have hr : ¬(i = key r) := h r (List.mem_cons_self _ _)
    have hrr : (i == key r) = false := by
      simp [hr]
    simp [matchNames, hrr]
    exact ih (fun r' hr' => h r' (List.mem_cons_of_mem _ hr'))

/-- With pairwise distinct listing ids, the inner scan appends at most one
name. -/
theorem matchNames_length_le_one (key : α → Int) (name : α → String) (i : Int)
    (listing : List α) (hnd : listing.Pairwise (fun a b => key a ≠ key b)) :
    (matchNames key name i listing).length ≤ 1 := by
  induction listing with
  | nil => simp [matchNames]
  | cons r rest ih =>
    obtain ⟨hr, hrest⟩ := List.pairwise_cons.mp hnd
    by_cases h : (i == key r) = true
    · have hi : i = key r := by simpa using h
      have : matchNames key name i rest = [] := by
        refine matchNames_eq_nil key name i rest (fun r' hr' => ?_)
        rw [hi]
        exact hr r' hr'
      simp [matchNames, h, this]
    · have h' : (i == key r) = false := by
        simpa using h
      simp [matchNames, h']
      exact ih hrest

/-- With pairwise distinct listing ids, the resolver output is never longer
than the input id list. -/
theorem collectNames_length_le (key : α → Int) (name : α → String)
    (ids : List Int) (listing : List α)
    (hnd : listing.Pairwise (fun a b => key a ≠ key b)) :
    (collectNames key name ids listing).length ≤ ids.length := by
  induction ids with
  | nil => simp [collectNames]
  | cons i ids ih =>
    have h1 := matchNames_length_le_one key name i listing hnd
    simp only [collectNames, List.length_append, List.length_cons]
    omega

/-- Claim C3, amended: on a correlated listing response each of
ResolveTeachers, ResolveRooms and ResolveClasses succeeds (unmatched ids are
skipped silently, never an error) and returns, for each input id in input
order, the names of ALL listing records carrying that id in listing order —
so the output can be longer than the id list when the listing repeats an id;
when the listing ids are pairwise distinct, at most one name is appended per
input id and the output is never longer than the input. -/
theorem resolvers_return_all_matches (c : Client) (hc : c.Authenticated = true)
    (ids : List Int) (tl : List TeacherRecord) (rl : List RoomRecord)
    (cl : List ClassRecord) :
    (ResolveTeachers c ids (.response true tl)).1
      = .ok (specResolvedNames TeacherRecord.ID TeacherRecord.Name ids tl) ∧
    (ResolveRooms c ids (.response true rl)).1
      = .ok (specResolvedNames RoomRecord.ID RoomRecord.Name ids rl) ∧
    (ResolveClasses c ids (.response true cl)).1
      = .ok (specResolvedNames ClassRecord.ID ClassRecord.Name ids cl) ∧
    (tl.Pairwise (fun a b => a.ID ≠ b.ID) →
      (specResolvedNames TeacherRecord.ID TeacherRecord.Name ids tl).length
        ≤ ids.length) := by
  refine ⟨?_, ?_, ?_, ?_⟩
  · simp [ResolveTeachers, hc, collectNames_eq_spec]
  · simp [ResolveRooms, hc, collectNames_eq_spec]
  · simp [ResolveClasses, hc, collectNames_eq_spec]
  · intro hnd
    rw [← collectNames_eq_spec]
    exact collectNames_length_le TeacherRecord.ID TeacherRecord.Name ids tl hnd

/-- Witness for the amended C3 on concrete inputs with a duplicated id in
the teacher listing. -/
theorem resolvers_return_all_matches_instance :
    (ResolveTeachers authClient [1, 99] (.response true dupListing)).1
      = .ok (specResolvedNames TeacherRecord.ID TeacherRecord.Name [1, 99] dupListing) ∧
    (ResolveRooms authClient [1, 99] (.response true [])).1
      = .ok (specResolvedNames RoomRecord.ID RoomRecord.Name [1, 99] []) ∧
    (ResolveClasses authClient [1, 99] (.response true [])).1
      = .ok (specResolvedNames ClassRecord.ID ClassRecord.Name [1, 99] []) ∧
    (dupListing.Pairwise (fun a b => a.ID ≠ b.ID) →
      (specResolvedNames TeacherRecord.ID TeacherRecord.Name [1, 99] dupListing).length
        ≤ ([1, 99] : List Int).length) :=
  resolvers_return_all_matches authClient rfl [1, 99] dupListing [] []

/-- Counterexample to claim C4 as stated: when the class-name resolution
fails (empty class listing), GetTimetableOfClass does NOT abort — the Go
code discards the error with a blank assignment — it still issues the
getTimetable call, with the unresolved id -1, and returns a successful
(empty) lesson list. -/
theorem class_timetable_ignores_resolver_failure :
    (ResolveClassID authClient "4AHIT" emptyEnv.klassen).1 = .error "class not found" ∧
    GetTimetableOfClass authClient day0 day0 "4AHIT" emptyEnv
      = (some (.ok []), [Call.getKlassen, Call.getTimetable (-1) 1]) :=
  ⟨rfl, rfl⟩

/-- A failure of the first failing per-record reference resolution aborts
the lesson loop at that record with the resolver's error. -/
theorem buildLessons_cons_abort (c : Client) (env : TimetableEnv) (l : RawLesson)
    (rest : List RawLesson) (msg : String) (year month day sh sm eh em : Int)
    (hd : decodeDate l.Date = some (year, month, day))
    (hs : decodePacked l.StartTime = some (sh, sm))
    (he : decodePacked l.EndTime = some (eh, em))
    (hfail : (ResolveClasses c l.Kl env.klassen).1 = .error msg ∨
      ((∃ v, (ResolveClasses c l.Kl env.klassen).1 = .ok v) ∧
        (ResolveTeachers c l.Te env.teachers).1 = .error msg) ∨
      ((∃ v, (ResolveClasses c l.Kl env.klassen).1 = .ok v) ∧
        (∃ v, (ResolveTeachers c l.Te env.teachers).1 = .ok v) ∧
        (ResolveRooms c l.Ro env.rooms).1 = .error msg)) :
    (buildLessons c env (l :: rest)).1 = some (.error msg) := by
  rcases hfail with hcl | ⟨⟨vc, hcl⟩, hte⟩ | ⟨⟨vc, hcl⟩, ⟨vt, hte⟩, hro⟩
  · cases hR1 : ResolveClasses c l.Kl env.klassen with
    | mk r1 c1 =>
      rw [hR1] at hcl
      simp only at hcl
      subst hcl
      simp [buildLessons, hd, hs, he, hR1]
  · cases hR1 : ResolveClasses c l.Kl env.klassen with
    | mk r1 c1 =>
      rw [hR1] at hcl
      simp only at hcl
      subst hcl
      cases hR2 : ResolveTeachers c l.Te env.teachers with
      | mk r2 c2 =>
        rw [hR2] at hte
        simp only at hte
        subst hte
        simp [buildLessons, hd, hs, he, hR1, hR2]
  · cases hR1 : ResolveClasses c l.Kl env.klassen with
    | mk r1 c1 =>
      rw [hR1] at hcl
      simp only at hcl
      subst hcl
      cases hR2 : ResolveTeachers c l.Te env.teachers with
      | mk r2 c2 =>
        rw [hR2] at hte
        simp only at hte
        subst hte
        cases hR3 : ResolveRooms c l.Ro env.rooms with
        | mk r3 c3 =>
          rw [hR3] at hro
          simp only at hro
          subst hro
          simp [buildLessons, hd, hs, he, hR1, hR2, hR3]

/-- A lesson loop that returns successfully has fully processed every raw
record: one lesson per record, no partial results. -/
theorem buildLessons_ok_length (c : Client) (env : TimetableEnv) :
    ∀ (ls : List RawLesson) (out : List Lesson),
      (buildLessons c env ls).1 = some (.ok out) → out.length = ls.length := by
  intro ls
  induction ls with
  | nil =>
    intro out h
    simp [buildLessons] at h
    simp [← h]
  | cons l rest ih =>
    intro out h
    cases hd : decodeDate l.Date with
    | none => simp [buildLessons, hd] at h
    | some ymd =>
      obtain ⟨year, month, day⟩ := ymd
      cases hs : decodePacked l.StartTime with
      | none => simp [buildLessons, hd, hs] at h
      | some sp =>
        obtain ⟨sh, sm⟩ := sp
        cases he : decodePacked l.EndTime with
        | none => simp [buildLessons, hd, hs, he] at h
        | some ep =>
          obtain ⟨eh, em⟩ := ep
          cases hR1 : ResolveClasses c l.Kl env.klassen with
          | mk r1 c1 =>
            cases r1 with
            | error m => simp [buildLessons, hd, hs, he, hR1] at h
            | ok classArr =>
              cases hR2 : ResolveTeachers c l.Te env.teachers with
              | mk r2 c2 =>
                cases r2 with
                | error m => simp [buildLessons, hd, hs, he, hR1, hR2] at h
                | ok teachArr =>
                  cases hR3 : ResolveRooms c l.Ro env.rooms with
                  | mk r3 c3 =>
                    cases r3 with
                    | error m => simp [buildLessons, hd, hs, he, hR1, hR2, hR3] at h
                    | ok roomArr =>
                      cases hB : buildLessons c env rest with
                      | mk res c4 =>
                        cases res with
                        | none =>
                          simp [buildLessons, hd, hs, he, hR1, hR2, hR3, hB] at h
                        | some exc =>
                          cases exc with
                          | error m =>
                            simp [buildLessons, hd, hs, he, hR1, hR2, hR3, hB] at h
                          | ok tail =>
                            simp [buildLessons, hd, hs, he, hR1, hR2, hR3, hB] at h
                            have htail : (buildLessons c env rest).1 = some (.ok tail) := by
                              rw [hB]
                            have := ih tail htail
                            simp [← h, this]

/-- Claim C4, amended: in every variant, a failure of the per-record
reference resolutions (classes, then teachers, then rooms) aborts the whole
retrieval with that error, and a successful retrieval returns exactly one
lesson per raw record (no partial results); in the by-teacher-name variant
a teacher-id resolution failure likewise aborts; the by-class-name variant,
however, discards the class-id resolution error and proceeds to query with
the unresolved id -1, so that retrieval can succeed despite the failure. -/
theorem timetable_resolver_failure_amended (c : Client) (s e : GoTime)
    (teacher cls : String) (env : TimetableEnv) (msg : String) :
    ((ResolveTeacherID c teacher env.teachers).1 = some (.error msg) →
      (GetTimetableOfSpecificTeacher c s e teacher env).1 = some (.error msg)) ∧
    (∀ (l : RawLesson) (rest : List RawLesson) (year month day sh sm eh em : Int),
      decodeDate l.Date = some (year, month, day) →
      decodePacked l.StartTime = some (sh, sm) →
      decodePacked l.EndTime = some (eh, em) →
      ((ResolveClasses c l.Kl env.klassen).1 = .error msg ∨
        ((∃ v, (ResolveClasses c l.Kl env.klassen).1 = .ok v) ∧
          (ResolveTeachers c l.Te env.teachers).1 = .error msg) ∨
        ((∃ v, (ResolveClasses c l.Kl env.klassen).1 = .ok v) ∧
          (∃ v, (ResolveTeachers c l.Te env.teachers).1 = .ok v) ∧
          (ResolveRooms c l.Ro env.rooms).1 = .error msg)) →
      ((buildLessons c env (l :: rest)).1 = some (.error msg) ∧
        (env.timetable = .response true (l :: rest) →
          c.Authenticated = true →
          (GetTimetableOfTeacher c s e env).1 = some (.error msg) ∧
          (GetTimetableOfClass c s e cls env).1 = some (.error msg) ∧
          (∀ id, (ResolveTeacherID c teacher env.teachers).1 = some (.ok id) →
            (GetTimetableOfSpecificTeacher c s e teacher env).1 = some (.error msg))))) ∧
    (∀ (ls : List RawLesson) (out : List Lesson),
      (buildLessons c env ls).1 = some (.ok out) → out.length = ls.length) ∧
    (c.Authenticated = true →
      (ResolveClassID c cls env.klassen).1 = .error msg →
      env.timetable = .response true [] →
      GetTimetableOfClass c s e cls env
        = (some (.ok []),
           (ResolveClassID c cls env.klassen).2 ++ [Call.getTimetable (-1) 1])) := by
  refine ⟨?_, ?_, buildLessons_ok_length c env, ?_⟩
  · intro h
    by_cases hc : c.Authenticated = true
    · cases hR : ResolveTeacherID c teacher env.teachers with
      | mk r calls =>
        rw [hR] at h
        simp only at h
        subst h
        simp [GetTimetableOfSpecificTeacher, hc, hR]
    · have hc' : c.Authenticated = false := by
        cases hh : c.Authenticated
        · rfl
        · exact absurd hh hc
      have hres : (ResolveTeacherID c teacher env.teachers).1
          = some (.error "not authenticated") := by
        simp [ResolveTeacherID, hc']
      rw [hres] at h
      simp only [Option.some.injEq, Except.error.injEq] at h
      rw [← h]
      simp [GetTimetableOfSpecificTeacher, hc']
  · intro l rest year month day sh sm eh em hd hs he hfail
    have hb := buildLessons_cons_abort c env l rest msg year month day sh sm eh em
      hd hs he hfail
    refine ⟨hb, ?_⟩
    intro htt hc
    cases hB : buildLessons c env (l :: rest) with
    | mk res calls =>
      rw [hB] at hb
      simp only at hb
      subst hb
      refine ⟨?_, ?_, ?_⟩
      · simp [GetTimetableOfTeacher, hc, htt, hB]
      · cases hRC : ResolveClassID c cls env.klassen with
        | mk rc cc => simp [GetTimetableOfClass, hc, htt, hRC, hB]
      · intro id hid
        cases hRT : ResolveTeacherID c teacher env.teachers with
        | mk rt ct =>
          rw [hRT] at hid
          simp only at hid
          subst hid
          simp [GetTimetableOfSpecificTeacher, hc, hRT, htt, hB]
  · intro hc hres htt
    cases hR : ResolveClassID c cls env.klassen with
    | mk r calls =>
      rw [hR] at hres
      simp only at hres
      subst hres
      simp [GetTimetableOfClass, hc, hR, htt, buildLessons, goIntValue]

/-- Witness for the amended C4: the teacher variant aborts on an unresolved
teacher; a per-record room-listing transport failure aborts all three
variants; a fully successful run of the lesson loop yields one lesson per
raw record; and the class variant succeeds despite an unresolved class. -/
theorem timetable_resolver_failure_instance :
    (GetTimetableOfSpecificTeacher authClient day0 day0 "John SMITH" emptyEnv).1
      = some (.error "teacher not found") ∧
    (buildLessons authClient failEnv [rawL]).1 = some (.error "connection reset") ∧
    (GetTimetableOfTeacher authClient day0 day0 failEnv).1
      = some (.error "connection reset") ∧
    (GetTimetableOfClass authClient day0 day0 "4AHIT" failEnv).1
      = some (.error "connection reset") ∧
    (GetTimetableOfSpecificTeacher authClient day0 day0 "John SMITH" failEnv).1
      = some (.error "connection reset") ∧
    ((buildLessons authClient okEnv [rawL]).1 = some (.ok [builtL]) ∧
      ([builtL] : List Lesson).length = ([rawL] : List RawLesson).length) ∧
    GetTimetableOfClass authClient day0 day0 "4AHIT" emptyEnv
      = (some (.ok []),
         (ResolveClassID authClient "4AHIT" emptyEnv.klassen).2
           ++ [Call.getTimetable (-1) 1]) := by
  have h1 := (timetable_resolver_failure_amended authClient day0 day0 "John SMITH" "4AHIT"
    emptyEnv "teacher not found").1 rfl
  have h2 := (timetable_resolver_failure_amended authClient day0 day0 "John SMITH" "4AHIT"
    failEnv "connection reset").2.1 rawL [] 2024 3 11 8 0 8 50 rfl rfl rfl
    (Or.inr (Or.inr ⟨⟨[], rfl⟩, ⟨[], rfl⟩, rfl⟩))
  have h2b := h2.2 rfl rfl
  have h3 := (timetable_resolver_failure_amended authClient day0 day0 "John SMITH" "4AHIT"
    okEnv "connection reset").2.2.1 [rawL] [builtL] rfl
  have h4 := (timetable_resolver_failure_amended authClient day0 day0 "John SMITH" "4AHIT"
    emptyEnv "class not found").2.2.2 rfl rfl rfl
  exact ⟨h1, h2.1, h2b.1, h2b.2.1, h2b.2.2 7 rfl, ⟨rfl, h3⟩, h4⟩

/-- Counterexample to claim C5 as stated: the claim predicts a match for
input "John Smith" against the record with long name "Smith Jonathan"
(both surname tokens uppercased before comparison), but the code uppercases
only the input token and compares it to the record's token as-is, so it
finds nothing. -/
theorem teacher_id_uppercase_counterexample :
    claimResolveTeacherID "John Smith" mixedCaseListing = some 5 ∧
    (ResolveTeacherID authClient "John Smith" (.response true mixedCaseListing)).1
      = some (.error "teacher not found") :=
  ⟨rfl, rfl⟩

/-- The teacher-id scan equals a first-match search over the listing. -/
theorem scanTeacherID_eq_find (forename key : String) (listing : List TeacherRecord) :
    scanTeacherID forename key listing =
      match listing.find? (fun r =>
          forename == r.ForeName && key == ((goSplit r.LongName ' ').headD "")) with
      | some r => Except.ok r.ID
      | none => Except.error "teacher not found" := by
  induction listing with
  | nil => rfl
  | cons r rest ih =>
    by_cases h : (forename == r.ForeName && key == ((goSplit r.LongName ' ').headD "")) = true
    · simp only [scanTeacherID, List.find?, h]
      simp
    · have h' : (forename == r.ForeName && key == ((goSplit r.LongName ' ').headD ""))
          = false := by
        simpa using h
      simp only [scanTeacherID, List.find?, h']
      simp [ih]

/-- Claim C5, amended: on an authenticated client and correlated response,
ResolveTeacherID takes the first and SECOND space-delimited tokens of the
input, uppercases only the second, and returns the id of the first record
whose given name equals the first token and whose first long-name token —
compared as-is, not uppercased — equals the uppercased second token,
failing with the not-found error when no record matches. -/
theorem teacher_id_resolution_amended (c : Client) (hc : c.Authenticated = true)
    (teacher : String) (listing : List TeacherRecord)
    (h2 : 2 ≤ (goSplit teacher ' ').length) :
    (ResolveTeacherID c teacher (.response true listing)).1 =
      some (match amendedResolveTeacherID teacher listing with
            | some i => Except.ok i
            | none => Except.error "teacher not found") := by
  obtain ⟨f, s, rest, hsplit⟩ : ∃ f s rest, goSplit teacher ' ' = f :: s :: rest := by
    cases h : goSplit teacher ' ' with
    | nil => rw [h] at h2; simp at h2
    | cons f t =>
      cases t with
      | nil => rw [h] at h2; simp at h2
      | cons s rest => exact ⟨f, s, rest, rfl⟩
  have hscan := scanTeacherID_eq_find f (goToUpper s) listing
  simp only [ResolveTeacherID, hc, amendedResolveTeacherID, hsplit, Bool.not_true,
    Bool.false_eq_true, if_false, if_true, hscan]
  cases hf : listing.find? (fun r =>
      f == r.ForeName && goToUpper s == ((goSplit r.LongName ' ').headD "")) <;>
    simp [hf]

/-- Witness for the amended C5, realizing the claim's own scenario: input
"John SMITH" against a listing holding long name "SMITH Jonathan" resolves
to that record's id. -/
theorem teacher_id_resolution_instance :
    (ResolveTeacherID authClient "John SMITH" (.response true specListing)).1
      = some (.ok 7) := by
  have h := teacher_id_resolution_amended authClient rfl "John SMITH" specListing (by decide)
  rw [h]
  rfl

set_option maxRecDepth 40000 in
/-- Claim C6: for every packed time integer between 1 and 2359 that carries
a two-digit minute suffix (the decimal form has at least two characters and
the value of the last two is a valid minute), decoding it the way timetable
parsing does and re-encoding hour*100+minute reproduces the integer. -/
theorem packed_time_roundtrip (t : Nat) (h1 : 1 ≤ t) (h2 : t ≤ 2359)
    (hw : 2 ≤ (goItoa (t : Int)).length) (hm : t % 100 < 60) :
    (decodePacked (t : Int)).map (fun p => p.1 * 100 + p.2) = some (t : Int) := by
  have key : (List.range 2360).all (fun n => decide (1 ≤ n → n % 100 < 60 →
      2 ≤ (goItoa (n : Int)).length →
      (decodePacked (n : Int)).map (fun p => p.1 * 100 + p.2) = some (n : Int)))
      = true := by
    decide
  have hmem : t ∈ List.range 2360 := List.mem_range.mpr (by omega)
  have hP := List.all_eq_true.mp key t hmem
  exact of_decide_eq_true hP h1 hm hw

/-- Witness for C6 at the packed time 1715 (17:15). -/
theorem packed_time_roundtrip_instance :
    (decodePacked (1715 : Int)).map (fun p => p.1 * 100 + p.2) = some (1715 : Int) :=
  packed_time_roundtrip 1715 (by decide) (by decide) (by decide) (by decide)

end Untis
